import Mathlib

/-!
Shallow embedding of the client-side data layer of the portfolio SPA
(`src/App.js`, class `ProjectService` plus the contact-filter view
computation).  Timestamps (ISO strings built from `Date.now()` /
`new Date().toISOString()`) are modelled as naturals ordered as the dates
are; JavaScript objects are modelled as structures whose `Option` fields
record key presence where the code distinguishes it; `localStorage` and
`JSON.parse` are host capabilities, modelled as an `Option String` cell and
a caller-supplied parse function that may fail (`Except`).
-/

namespace Portfolio

/-- A contact message record, as built by `ProjectService.contact`
(`src/App.js` lines 250-256). -/
structure Contact where
  id : String
  name : String
  email : String
  message : String
  createdAt : Nat
  read : Bool
  status : String
deriving Repr, DecidableEq

/-- A stored project record (`src/App.js` INITIAL_PROJECTS and the records
built by `ProjectService.save`).  `projectImage` / `bannerImage` hold
`none` for JavaScript `null` (or an absent key, which the code never
distinguishes from `null`: it only reads the fields through truthiness or
spreads them); `updatedAt` is `none` for the seed records, which lack the
key. -/
structure Project where
  id : String
  title : String
  description : String
  technologies : List String
  liveUrl : String
  githubUrl : String
  projectImage : Option String
  bannerImage : Option String
  isContact : Bool
  createdAt : Nat
  updatedAt : Option Nat
deriving Repr, DecidableEq

/-- INITIAL_PROJECTS (`src/App.js` lines 64-95); `createdAt` dates
2024-01-15, 2024-02-20, 2024-03-10 are rendered as `yyyymmdd` naturals,
which orders them as the dates are ordered. -/
def INITIAL_PROJECTS : List Project :=
  [ { id := "p1", title := "MERN Stack E-Commerce",
      description := "A full-featured shopping platform with user authentication and payment integration.",
      technologies := ["MongoDB", "Express", "React", "Node.js", "Stripe"],
      liveUrl := "https://example-ecommerce.com",
      githubUrl := "https://github.com/example/ecommerce",
      projectImage := none, bannerImage := none, isContact := false,
      createdAt := 20240115, updatedAt := none },
    { id := "p2", title := "Real-Time Chat App",
      description := "Built with Socket.io for instant messaging, demonstrating excellent WebSocket handling.",
      technologies := ["Node.js", "Socket.io", "React", "Tailwind"],
      liveUrl := "https://example-chat.com",
      githubUrl := "https://github.com/example/chat-app",
      projectImage := none, bannerImage := none, isContact := false,
      createdAt := 20240220, updatedAt := none },
    { id := "p3", title := "Data Visualization Dashboard",
      description := "Interactive dashboard using D3.js and TypeScript to display complex data sets.",
      technologies := ["TypeScript", "D3.js", "React"],
      liveUrl := "https://example-dashboard.com",
      githubUrl := "https://github.com/example/dashboard",
      projectImage := none, bannerImage := none, isContact := false,
      createdAt := 20240310, updatedAt := none } ]

/-- The `technologies` value an input to `save` may carry: either an
already-split array or a comma-separated string
(`Array.isArray(project.technologies) ? ... : project.technologies.split(...)`). -/
inductive TechInput where
  | arr (l : List String)
  | str (s : String)
deriving Repr, DecidableEq

/-- The JavaScript error thrown when `.split` is called on a value that is
not a string (here: `undefined`, i.e. an absent `technologies` field). -/
inductive JsError where
  | typeError
deriving Repr, DecidableEq

/-- Input object accepted by `ProjectService.save` — the shape the form
layer passes (`ProjectForm.handleSubmit`): optional `_id`, the listed
optional text fields, `technologies` in either shape, optional image
references.  `none` on `_id` covers both an absent and a falsy id: the
code only ever tests `project._id` for truthiness, spreads it, and an
empty-string id takes exactly the same path as an absent one. -/
structure SaveInput where
  _id : Option String
  title : Option String
  description : Option String
  technologies : Option TechInput
  liveUrl : Option String
  githubUrl : Option String
  projectImage : Option String
  bannerImage : Option String
deriving Repr, DecidableEq

/-- `x || null` on an image reference: JavaScript keeps a truthy string and
collapses `null` / `undefined` / `""` to `null`. -/
def jsOrNull : Option String → Option String
  | none => none
  | some s => if s = "" then none else some s

/-- `project.technologies.split(',').map(tech => tech.trim()).filter(tech => tech)`. -/
def splitTechnologies (s : String) : List String :=
  ((s.splitOn ",").map String.trim).filter (fun t => t ≠ "")

/-- `Array.isArray(project.technologies) ? project.technologies : project.technologies.split(...)`. -/
def normalizeTechnologies : TechInput → List String
  | .arr l => l
  | .str s => splitTechnologies s

/-- The `projectData` object literal built at the top of
`ProjectService.save` (lines 212-220): the spread of the input plus four
keys that are always present afterwards (`technologies`, `updatedAt`,
`projectImage`, `bannerImage`).  `Option` fields are the keys whose
presence still depends on the input. -/
structure ProjectData where
  _id : Option String
  title : Option String
  description : Option String
  technologies : List String
  liveUrl : Option String
  githubUrl : Option String
  updatedAt : Nat
  projectImage : Option String
  bannerImage : Option String
deriving Repr, DecidableEq

/-- The value of `projectData` once `technologies` normalised without
throwing. -/
def projectData (input : SaveInput) (t : TechInput) (now : Nat) : ProjectData :=
  { _id := input._id
    title := input.title
    description := input.description
    technologies := normalizeTechnologies t
    liveUrl := input.liveUrl
    githubUrl := input.githubUrl
    updatedAt := now
    projectImage := jsOrNull input.projectImage
    bannerImage := jsOrNull input.bannerImage }

/-- Building `projectData`: evaluating the object literal calls `.split`
on `project.technologies`, which throws a `TypeError` when the field is
absent — before any branch of `save` runs. -/
def mkProjectData (input : SaveInput) (now : Nat) : Except JsError ProjectData :=
  match input.technologies with
  | none => .error .typeError
  | some t => .ok (projectData input t now)

/-- `{ ...p, ...projectData }` (line 225): keys present in `projectData`
overwrite `p`, the rest of `p` is kept.  `technologies`, `updatedAt`,
`projectImage` and `bannerImage` are always present in `projectData`, so
they always overwrite; `isContact` and `createdAt` are never in
`projectData`, so they are always kept. -/
def mergePatch (p : Project) (d : ProjectData) : Project :=
  { id := d._id.getD p.id
    title := d.title.getD p.title
    description := d.description.getD p.description
    technologies := d.technologies
    liveUrl := d.liveUrl.getD p.liveUrl
    githubUrl := d.githubUrl.getD p.githubUrl
    projectImage := d.projectImage
    bannerImage := d.bannerImage
    isContact := p.isContact
    createdAt := p.createdAt
    updatedAt := some d.updatedAt }

/-- `{ ...projectData, _id: 'p' + ..., createdAt: ... }` (lines 229-233):
the new record of the create branch.  Keys the input did not supply are
absent in the JavaScript record; the embedding renders such an absent text
key as `""` and an absent `isContact` as `false` (no claim reads them on
this path). -/
def newProjectOf (d : ProjectData) (freshId : String) (now : Nat) : Project :=
  { id := freshId
    title := d.title.getD ""
    description := d.description.getD ""
    technologies := d.technologies
    liveUrl := d.liveUrl.getD ""
    githubUrl := d.githubUrl.getD ""
    projectImage := d.projectImage
    bannerImage := d.bannerImage
    isContact := false
    createdAt := now
    updatedAt := some d.updatedAt }

/-- The project-side state of the service: the in-memory collection
(`this.projects`) and the durable copy under the `portfolio-projects` key
(what `saveToStorage` last wrote). -/
structure ServiceState where
  projects : List Project
  storedProjects : List Project
deriving Repr, DecidableEq

namespace ProjectService

/-- `saveToStorage` (lines 182-188): serialise the in-memory collection
into the durable cell. -/
def saveToStorage (s : ServiceState) : ServiceState :=
  { s with storedProjects := s.projects }

/-- `ProjectService.fetchAll` (lines 202-207): a sorted copy of the
collection.  The comparator `new Date(b.createdAt) - new Date(a.createdAt)`
orders by `createdAt` descending; JavaScript sort is stable, as is
`insertionSort`. -/
def fetchAll (projects : List Project) : List Project :=
  List.insertionSort (fun a b => b.createdAt ≤ a.createdAt) projects

/-- `ProjectService.save` (lines 209-239).  `now` stands for the wall
clock read by `new Date().toISOString()`, `freshId` for
`'p' + Date.now() + Math.random()...`.  Returns the updated state (the
mutation plus `saveToStorage`) and the returned record (`none` =
`undefined`); a thrown `TypeError` is an `error`, produced before any
mutation. -/
def save (now : Nat) (freshId : String) (input : SaveInput) (s : ServiceState) :
    Except JsError (ServiceState × Option Project) :=
  match mkProjectData input now with
  | .error e => .error e
  | .ok d =>
      let projects1 :=
        match input._id with
        | some i => s.projects.map (fun p => if p.id = i then mergePatch p d else p)
        | none => newProjectOf d freshId now :: s.projects
      let s2 : ServiceState := { projects := projects1, storedProjects := projects1 }
      let ret : Option Project :=
        match d._id with
        | some i => projects1.find? (fun p => p.id = i)
        | none => projects1.head?
      .ok (s2, ret)

/-- What the caller's state is after `save`: JavaScript exception
semantics — if the body threw, no assignment to `this.projects` or to
storage happened and the state is unchanged. -/
def runSave (now : Nat) (freshId : String) (input : SaveInput) (s : ServiceState) :
    ServiceState :=
  match save now freshId input s with
  | .ok (s2, _) => s2
  | .error _ => s

/-- `ProjectService.delete` (lines 241-245). -/
def delete (id : String) (s : ServiceState) : ServiceState :=
  saveToStorage { s with projects := s.projects.filter (fun p => p.id ≠ id) }

/-- Input object accepted by `ProjectService.contact`. -/
structure ContactInput where
  name : String
  email : String
  message : String
deriving Repr, DecidableEq

/-- The acknowledgment payload `contact` returns (lines 261-265). -/
structure ContactReply where
  success : Bool
  message : String
  contactId : String
deriving Repr, DecidableEq

/-- The `contactData` record built by `contact` (lines 250-256). -/
def newContact (data : ContactInput) (now : Nat) (freshId : String) : Contact :=
  { id := freshId
    name := data.name
    email := data.email
    message := data.message
    createdAt := now
    read := false
    status := "new" }

/-- `ProjectService.contact` (lines 247-266): unshift the new record,
persist, return the acknowledgment. -/
def contact (data : ContactInput) (now : Nat) (freshId : String)
    (contacts : List Contact) : ContactReply × List Contact :=
  let contactData := newContact data now freshId
  ({ success := true
     message := "Thank you for your message! I will get back to you soon."
     contactId := contactData.id },
   contactData :: contacts)

/-- `ProjectService.markAsRead` (lines 275-282). -/
def markAsRead (contactId : String) (contacts : List Contact) : List Contact :=
  contacts.map (fun c => if c.id = contactId then { c with read := true, status := "read" } else c)

/-- `ProjectService.markAsReplied` (lines 284-291). -/
def markAsReplied (contactId : String) (contacts : List Contact) : List Contact :=
  contacts.map (fun c => if c.id = contactId then { c with status := "replied" } else c)

/-- `ProjectService.deleteContact` (lines 293-298). -/
def deleteContact (contactId : String) (contacts : List Contact) : List Contact :=
  contacts.filter (fun c => c.id ≠ contactId)

/-- `ProjectService.getUnreadCount` (lines 300-302): synchronous count of
unread contacts. -/
def getUnreadCount (contacts : List Contact) : Nat :=
  (contacts.filter (fun c => !c.read)).length

/-- `loadFromStorage` (lines 164-171): `parse` is the host JSON parser
(may throw = `Except.error`), `stored` the `portfolio-projects` cell
(`none` = key absent).  The `stored ?` test is JavaScript truthiness, so
an empty string also falls back. -/
def tryLoadProjects (parse : String → Except String (List Project))
    (stored : Option String) : Except String (List Project) :=
  match stored with
  | none => .ok INITIAL_PROJECTS
  | some s => if s = "" then .ok INITIAL_PROJECTS else parse s

/-- `loadFromStorage` with its `try/catch`: any failure is absorbed and
the fallback `[...INITIAL_PROJECTS]` returned; the function always
returns a collection, never propagating an exception. -/
def loadFromStorage (parse : String → Except String (List Project))
    (stored : Option String) : List Project :=
  match tryLoadProjects parse stored with
  | .ok v => v
  | .error _ => INITIAL_PROJECTS

/-- `loadContactsFromStorage` (lines 173-180), fallback `[]`. -/
def tryLoadContacts (parse : String → Except String (List Contact))
    (stored : Option String) : Except String (List Contact) :=
  match stored with
  | none => .ok []
  | some s => if s = "" then .ok [] else parse s

/-- `loadContactsFromStorage` with its `try/catch`. -/
def loadContactsFromStorage (parse : String → Except String (List Contact))
    (stored : Option String) : List Contact :=
  match tryLoadContacts parse stored with
  | .ok v => v
  | .error _ => []

end ProjectService

open ProjectService

/-- One Record Service operation on the contact collection, carrying the
host-supplied wall clock and generated id where the code reads them. -/
inductive ContactOp where
  | submit (data : ContactInput) (now : Nat) (freshId : String)
  | markRead (id : String)
  | markReplied (id : String)
  | delContact (id : String)
deriving Repr, DecidableEq

/-- Effect of one operation on the contact collection. -/
def contactStep : ContactOp → List Contact → List Contact
  | .submit data now freshId, cs => (contact data now freshId cs).2
  | .markRead i, cs => markAsRead i cs
  | .markReplied i, cs => markAsReplied i cs
  | .delContact i, cs => deleteContact i cs

/-- A sequence of Record Service operations, run left to right. -/
def runContactOps (ops : List ContactOp) (cs : List Contact) : List Contact :=
  ops.foldl (fun s op => contactStep op s) cs

/-- `filteredContacts` (`src/App.js` lines 1686-1692): the contact-list
filter predicate of the admin view. -/
def filteredContacts (filt : String) (contacts : List Contact) : List Contact :=
  contacts.filter (fun c =>
    if filt = "all" then true
    else if filt = "new" then !c.read
    else if filt = "read" then c.read && !(c.status == "replied")
    else if filt = "replied" then c.status == "replied"
    else true)

-- ----------------------------------------------------------------------
-- Theorems
-- ----------------------------------------------------------------------

/-- Mapping a function that fixes every element of a list is the
identity. -/
theorem map_id_of_mem {α : Type} (l : List α) (f : α → α) (h : ∀ a ∈ l, f a = a) :
    l.map f = l := by
  induction l with
  | nil => rfl
  | cons a t ih =>
    simp only [List.map_cons, h a (List.mem_cons_self a t), List.cons.injEq, true_and]
    exact ih (fun b hb => h b (List.mem_cons_of_mem a hb))

/-- C3: a freshly submitted contact (the record `contact` unshifts, i.e.
the head of the new collection) has `read = false` and `status = "new"`;
after `markAsRead` on its id it has `read = true` and `status = "read"`;
after a subsequent `markAsReplied` on its id it has `status = "replied"`
while `read` stays `true`. -/
theorem contact_lifecycle (cs : List Contact) (d : ContactInput) (now : Nat) (cid : String) :
    ((contact d now cid cs).2.head?.map (fun c => (c.read, c.status)) = some (false, "new"))
    ∧ ((markAsRead cid (contact d now cid cs).2).head?.map (fun c => (c.read, c.status))
        = some (true, "read"))
    ∧ ((markAsReplied cid (markAsRead cid (contact d now cid cs).2)).head?.map
        (fun c => (c.read, c.status)) = some (true, "replied")) := by
  refine ⟨rfl, ?_, ?_⟩ <;> simp [contact, newContact, markAsRead, markAsReplied]

/-- C4: after any sequence of submit / mark-read / mark-replied / delete
operations, the synchronous `getUnreadCount` equals the number of contact
messages whose `read` field is `false`. -/
theorem unreadCount_correct (ops : List ContactOp) (cs0 : List Contact) :
    getUnreadCount (runContactOps ops cs0)
      = (runContactOps ops cs0).countP (fun c => c.read = false) := by
  have hp : (fun c : Contact => decide (c.read = false)) = (fun c : Contact => !c.read) := by
    funext c
    cases c.read <;> rfl
  rw [getUnreadCount, List.countP_eq_length_filter, hp]

/-- C5: `fetchAll` returns the whole collection (a permutation — no paging
or omission), sorted by `createdAt` descending, whatever the insertion
order was. -/
theorem fetchAll_sorted_desc (ps : List Project) :
    List.Perm (fetchAll ps) ps
      ∧ List.Sorted (fun a b : Project => b.createdAt ≤ a.createdAt) (fetchAll ps) := by
  constructor
  · exact List.perm_insertionSort _ ps
  · haveI : IsTotal Project (fun a b => b.createdAt ≤ a.createdAt) :=
      ⟨fun a b => le_total b.createdAt a.createdAt⟩
    haveI : IsTrans Project (fun a b => b.createdAt ≤ a.createdAt) :=
      ⟨fun _ _ _ hab hbc => le_trans hbc hab⟩
    exact List.sorted_insertionSort _ ps

/-- C8: the contact filter predicate selects exactly: `all` → every
message; `new` → `read` false; `read` → `read` true and status not
`replied`; `replied` → status `replied`. -/
theorem filteredContacts_spec (cs : List Contact) (c : Contact) :
    (c ∈ filteredContacts "all" cs ↔ c ∈ cs)
    ∧ (c ∈ filteredContacts "new" cs ↔ c ∈ cs ∧ c.read = false)
    ∧ (c ∈ filteredContacts "read" cs ↔ c ∈ cs ∧ c.read = true ∧ c.status ≠ "replied")
    ∧ (c ∈ filteredContacts "replied" cs ↔ c ∈ cs ∧ c.status = "replied") := by
  refine ⟨?_, ?_, ?_, ?_⟩ <;>
    simp [filteredContacts, List.mem_filter, and_assoc, Bool.not_eq_true]

/-- C6: on an id absent from the respective collection, `delete`,
`markAsRead`, `markAsReplied` and `deleteContact` are silent no-ops (total
functions, so no error), and deleting a project id twice gives the same
state as deleting it once. -/
theorem mutation_unknown_id_noop (s : ServiceState) (cs : List Contact) (i : String)
    (hp : ∀ p ∈ s.projects, p.id ≠ i) (hc : ∀ c ∈ cs, c.id ≠ i) :
    (ProjectService.delete i s).projects = s.projects
    ∧ markAsRead i cs = cs
    ∧ markAsReplied i cs = cs
    ∧ deleteContact i cs = cs
    ∧ ∀ (j : String) (s2 : ServiceState),
        ProjectService.delete j (ProjectService.delete j s2) = ProjectService.delete j s2 := by
  refine ⟨?_, ?_, ?_, ?_, ?_⟩
  · simp only [ProjectService.delete, saveToStorage]
    exact List.filter_eq_self.mpr (fun p hmem => by simp [hp p hmem])
  · exact map_id_of_mem _ _ (fun c hmem => if_neg (hc c hmem))
  · exact map_id_of_mem _ _ (fun c hmem => if_neg (hc c hmem))
  · exact List.filter_eq_self.mpr (fun c hmem => by simp [hc c hmem])
  · intro j s2
    simp [ProjectService.delete, saveToStorage, List.filter_filter]

/-- C6 witness: a fresh id against the seed projects and one contact. -/
def wContact : Contact :=
  { id := "c9", name := "n", email := "e", message := "m",
    createdAt := 1, read := false, status := "new" }

theorem mutation_unknown_id_noop_witness :
    (ProjectService.delete "zz" ⟨INITIAL_PROJECTS, INITIAL_PROJECTS⟩).projects
        = (⟨INITIAL_PROJECTS, INITIAL_PROJECTS⟩ : ServiceState).projects
    ∧ markAsRead "zz" [wContact] = [wContact]
    ∧ markAsReplied "zz" [wContact] = [wContact]
    ∧ deleteContact "zz" [wContact] = [wContact] := by
  have h := mutation_unknown_id_noop ⟨INITIAL_PROJECTS, INITIAL_PROJECTS⟩ [wContact] "zz"
    (by decide) (by decide)
  exact ⟨h.1, h.2.1, h.2.2.1, h.2.2.2.1⟩

/-- C7: `loadFromStorage` / `loadContactsFromStorage` return the parsed
collection when the cell holds a parseable value, and the configured
fallback (`INITIAL_PROJECTS`, resp. `[]`) when the cell is absent, falsy,
or the parse fails; both are total functions, so no exception reaches the
caller. -/
theorem load_absorbs_failures
    (pparse : String → Except String (List Project))
    (cparse : String → Except String (List Contact))
    (stored : Option String) :
    (stored = none →
      loadFromStorage pparse stored = INITIAL_PROJECTS
        ∧ loadContactsFromStorage cparse stored = [])
    ∧ (loadFromStorage pparse (some "") = INITIAL_PROJECTS
        ∧ loadContactsFromStorage cparse (some "") = [])
    ∧ (∀ s v, stored = some s → s ≠ "" → pparse s = .ok v →
        loadFromStorage pparse stored = v)
    ∧ (∀ s v, stored = some s → s ≠ "" → cparse s = .ok v →
        loadContactsFromStorage cparse stored = v)
    ∧ (∀ s e, stored = some s → pparse s = .error e →
        loadFromStorage pparse stored = INITIAL_PROJECTS)
    ∧ (∀ s e, stored = some s → cparse s = .error e →
        loadContactsFromStorage cparse stored = []) := by
  refine ⟨?_, ?_, ?_, ?_, ?_, ?_⟩
  · rintro rfl
    exact ⟨rfl, rfl⟩
  · exact ⟨rfl, rfl⟩
  · rintro s v rfl hs hv
    simp [loadFromStorage, tryLoadProjects, hs, hv]
  · rintro s v rfl hs hv
    simp [loadContactsFromStorage, tryLoadContacts, hs, hv]
  · rintro s e rfl hv
    by_cases hs : s = ""
    · simp [loadFromStorage, tryLoadProjects, hs]
    · simp [loadFromStorage, tryLoadProjects, hs, hv]
  · rintro s e rfl hv
    by_cases hs : s = ""
    · simp [loadContactsFromStorage, tryLoadContacts, hs]
    · simp [loadContactsFromStorage, tryLoadContacts, hs, hv]

/-- C7 witness: a parse function returning an empty document. -/
def pparseW : String → Except String (List Project) := fun _ => .ok []

/-- C7 witness: contact-side parse function. -/
def cparseW : String → Except String (List Contact) := fun _ => .ok []

theorem load_absorbs_failures_witness :
    loadFromStorage pparseW (some "[]") = [] :=
  (load_absorbs_failures pparseW cparseW (some "[]")).2.2.1 "[]" [] rfl (by decide) rfl

/-- C9: when the input's `technologies` field is absent, `save` throws a
`TypeError` while building `projectData`, before any insert, merge or
persist — the caller's state is unchanged. -/
theorem save_missing_technologies_throws
    (now : Nat) (freshId : String) (input : SaveInput) (s : ServiceState)
    (h : input.technologies = none) :
    save now freshId input s = .error .typeError ∧ runSave now freshId input s = s := by
  have h1 : save now freshId input s = .error .typeError := by
    simp [save, mkProjectData, h]
  exact ⟨h1, by simp [runSave, h1]⟩

/-- C9 witness: an input carrying a title but no technologies. -/
def wInput9 : SaveInput :=
  { _id := none, title := some "T", description := none, technologies := none,
    liveUrl := none, githubUrl := none, projectImage := none, bannerImage := none }

theorem save_missing_technologies_throws_witness :
    save 1 "p1x" wInput9 ⟨INITIAL_PROJECTS, INITIAL_PROJECTS⟩ = .error .typeError
    ∧ runSave 1 "p1x" wInput9 ⟨INITIAL_PROJECTS, INITIAL_PROJECTS⟩
        = ⟨INITIAL_PROJECTS, INITIAL_PROJECTS⟩ :=
  save_missing_technologies_throws 1 "p1x" wInput9 ⟨INITIAL_PROJECTS, INITIAL_PROJECTS⟩ rfl

/-- C10: an input whose id is present but matches no stored record leaves
the collection unchanged (the update map hits nothing), re-persists the
unchanged collection, and returns `none` (`undefined`) instead of a
record. -/
theorem save_unknown_id_noop
    (now : Nat) (freshId : String) (input : SaveInput) (s : ServiceState)
    (i : String) (t : TechInput)
    (hid : input._id = some i)
    (htech : input.technologies = some t)
    (hmiss : ∀ p ∈ s.projects, p.id ≠ i) :
    save now freshId input s
      = .ok ({ projects := s.projects, storedProjects := s.projects }, none) := by
  simp only [save, mkProjectData, htech, hid, projectData, List.find?_eq_none, Except.ok.injEq,
    Prod.mk.injEq, ServiceState.mk.injEq, decide_eq_true_eq]
  have hmap : ∀ (g : Project → Project),
      s.projects.map (fun p => if p.id = i then g p else p) = s.projects :=
    fun g => map_id_of_mem _ _ (fun p hp => if_neg (hmiss p hp))
  refine ⟨⟨hmap _, hmap _⟩, ?_⟩
  intro x hx
  rw [hmap] at hx
  exact hmiss x hx

/-- C10 witness: an unknown id against the seed projects, with the
durable copy initially out of sync to show the re-persist. -/
def wInput10 : SaveInput :=
  { _id := some "nope", title := some "X", description := none,
    technologies := some (.arr ["X"]),
    liveUrl := none, githubUrl := none, projectImage := none, bannerImage := none }

theorem save_unknown_id_noop_witness :
    save 2 "g" wInput10 ⟨INITIAL_PROJECTS, []⟩
      = .ok ({ projects := INITIAL_PROJECTS, storedProjects := INITIAL_PROJECTS }, none) :=
  save_unknown_id_noop 2 "g" wInput10 ⟨INITIAL_PROJECTS, []⟩ "nope" (.arr ["X"])
    rfl rfl (by decide)

/-- A replied contact message, as stored after `markAsReplied` ran on a
read message. -/
def repliedMsg : Contact :=
  { id := "c1", name := "a", email := "b", message := "hello",
    createdAt := 3, read := true, status := "replied" }

/-- C2 counterexample: `markAsRead` on a replied message moves it back to
status `"read"` — replied is not terminal under the Record Service
operations. -/
theorem replied_not_terminal_counterexample :
    repliedMsg.status = "replied"
    ∧ (markAsRead repliedMsg.id [repliedMsg]).map Contact.status = ["read"] := by
  decide

/-- C2 amended: a replied message is never moved to an earlier status by
`submitContact`, `markContactReplied`, or a deletion/mark on any id other
than its own; it leaves the collection only through `deleteContact` of its
id; but `markContactRead` of its id does reset its status to `"read"`. -/
theorem replied_terminal_amended (op : ContactOp) (cs : List Contact) (c : Contact)
    (hc : c ∈ cs) (hs : c.status = "replied") :
    c ∈ contactStep op cs ∨ op = .markRead c.id ∨ op = .delContact c.id := by
  cases op with
  | submit d now freshId =>
    exact Or.inl (List.mem_cons_of_mem _ hc)
  | markRead i =>
    by_cases h : i = c.id
    · exact Or.inr (Or.inl (by rw [h]))
    · exact Or.inl (List.mem_map.mpr ⟨c, hc, if_neg (fun hh => h hh.symm)⟩)
  | markReplied i =>
    left
    by_cases h : c.id = i
    · refine List.mem_map.mpr ⟨c, hc, ?_⟩
      rw [if_pos h]
      cases c
      simp only [Contact.mk.injEq, and_true, true_and]
      exact hs.symm
    · exact List.mem_map.mpr ⟨c, hc, if_neg h⟩
  | delContact i =>
    by_cases h : i = c.id
    · exact Or.inr (Or.inr (by rw [h]))
    · refine Or.inl (List.mem_filter.mpr ⟨hc, ?_⟩)
      simp only [decide_eq_true_eq]
      exact fun hh => h hh.symm

theorem replied_terminal_amended_witness :
    repliedMsg ∈ contactStep (.markReplied "other") [repliedMsg]
    ∨ ContactOp.markReplied "other" = .markRead repliedMsg.id
    ∨ ContactOp.markReplied "other" = .delContact repliedMsg.id :=
  replied_terminal_amended (.markReplied "other") [repliedMsg] repliedMsg (by decide) rfl

/-- `find?` on the post-update collection: the collection arises from the
update `map`, the target id is unique in the source, so the lookup hits
the rewritten record. -/
theorem find?_update_map (l : List Project) (P : Project) (g : Project → Project)
    (hP : P ∈ l) (huniq : ∀ q ∈ l, q.id = P.id → q = P)
    (hg : (g P).id = P.id) :
    (l.map (fun q => if q.id = P.id then g q else q)).find? (fun p => p.id = P.id)
      = some (g P) := by
  induction l with
  | nil => cases hP
  | cons a tl ih =>
    by_cases ha : a.id = P.id
    · have haP : a = P := huniq a (List.mem_cons_self a tl) ha
      subst haP
      rw [List.map_cons, if_pos rfl]
      exact List.find?_cons_of_pos _ (by simp [hg])
    · have hPtl : P ∈ tl := by
        rcases List.mem_cons.mp hP with h | h
        · exact absurd (h ▸ rfl : a.id = P.id) ha
        · exact h
      rw [List.map_cons, if_neg ha, List.find?_cons_of_neg _ (by simp [ha])]
      exact ih hPtl (fun q hq => huniq q (List.mem_cons_of_mem a hq))

/-- A stored project carrying both image references. -/
def c1Project : Project :=
  { id := "p9", title := "Old", description := "D", technologies := ["React"],
    liveUrl := "", githubUrl := "", projectImage := some "shot.png",
    bannerImage := some "ban.png", isContact := false, createdAt := 10,
    updatedAt := none }

/-- An update input carrying `c1Project`'s id, a new title and
technologies, and no image fields. -/
def c1Input : SaveInput :=
  { _id := some "p9", title := some "X", description := none,
    technologies := some (.arr ["React"]), liveUrl := none, githubUrl := none,
    projectImage := none, bannerImage := none }

/-- What `save` actually stores for `c1Input`: both images wiped to
`null`. -/
def c1Merged : Project :=
  { id := "p9", title := "X", description := "D", technologies := ["React"],
    liveUrl := "", githubUrl := "", projectImage := none, bannerImage := none,
    isContact := false, createdAt := 10, updatedAt := some 99 }

/-- C1 counterexample: updating only the title of a project that has
stored images does not preserve `projectImage` / `bannerImage` — `save`
always writes `input.projectImage || null`, so both are overwritten with
`null`. -/
theorem save_update_merge_counterexample :
    save 99 "g" c1Input ⟨[c1Project], [c1Project]⟩
      = .ok ({ projects := [c1Merged], storedProjects := [c1Merged] }, some c1Merged)
    ∧ c1Project.projectImage = some "shot.png"
    ∧ c1Merged.projectImage = none
    ∧ c1Project.bannerImage = some "ban.png"
    ∧ c1Merged.bannerImage = none :=
  ⟨rfl, rfl, rfl, rfl, rfl⟩

/-- C1 amended: for an existing project `P` (id unique in the collection)
and an update input carrying `P.id` and a `technologies` value, `save`
merges the supplied fields onto `P`: every field of `P` not present in the
input is preserved — except `projectImage` and `bannerImage`, which are
always overwritten with the input's value or `null` when absent or falsy;
`updatedAt` is set to now, `createdAt` is untouched, and the returned
record is the post-merge stored record. -/
theorem save_update_merge
    (now : Nat) (freshId : String) (input : SaveInput) (s : ServiceState)
    (P : Project) (t : TechInput)
    (hid : input._id = some P.id)
    (htech : input.technologies = some t)
    (hP : P ∈ s.projects)
    (huniq : ∀ q ∈ s.projects, q.id = P.id → q = P) :
    save now freshId input s
      = .ok ({ projects := s.projects.map
                 (fun q => if q.id = P.id then mergePatch q (projectData input t now) else q),
               storedProjects := s.projects.map
                 (fun q => if q.id = P.id then mergePatch q (projectData input t now) else q) },
             some (mergePatch P (projectData input t now)))
    ∧ (input.title = none → (mergePatch P (projectData input t now)).title = P.title)
    ∧ (input.description = none →
        (mergePatch P (projectData input t now)).description = P.description)
    ∧ (input.liveUrl = none → (mergePatch P (projectData input t now)).liveUrl = P.liveUrl)
    ∧ (input.githubUrl = none → (mergePatch P (projectData input t now)).githubUrl = P.githubUrl)
    ∧ (mergePatch P (projectData input t now)).isContact = P.isContact
    ∧ (mergePatch P (projectData input t now)).createdAt = P.createdAt
    ∧ (mergePatch P (projectData input t now)).updatedAt = some now
    ∧ (mergePatch P (projectData input t now)).id = P.id
    ∧ (mergePatch P (projectData input t now)).technologies = normalizeTechnologies t
    ∧ (mergePatch P (projectData input t now)).projectImage = jsOrNull input.projectImage
    ∧ (mergePatch P (projectData input t now)).bannerImage = jsOrNull input.bannerImage := by
  have hdid : (projectData input t now)._id = some P.id := hid
  refine ⟨?_, ?_, ?_, ?_, ?_, rfl, rfl, rfl, ?_, rfl, rfl, rfl⟩
  · have hmergeId : (mergePatch P (projectData input t now)).id = P.id := by
      simp [mergePatch, projectData, hid]
    simp only [save, mkProjectData, htech, hid, hdid]
    rw [find?_update_map s.projects P (fun q => mergePatch q (projectData input t now))
      hP huniq hmergeId]
  · intro h
    simp [mergePatch, projectData, h]
  · intro h
    simp [mergePatch, projectData, h]
  · intro h
    simp [mergePatch, projectData, h]
  · intro h
    simp [mergePatch, projectData, h]
  · simp [mergePatch, projectData, hid]

/-- C1 witness project. -/
def wP1 : Project :=
  { id := "w1", title := "Old", description := "D", technologies := ["T"],
    liveUrl := "", githubUrl := "", projectImage := some "img", bannerImage := none,
    isContact := false, createdAt := 7, updatedAt := none }

/-- C1 witness input: update of `wP1` supplying a title. -/
def wIn1 : SaveInput :=
  { _id := some "w1", title := some "New", description := none,
    technologies := some (.arr ["T"]), liveUrl := none, githubUrl := none,
    projectImage := none, bannerImage := none }

theorem save_update_merge_witness :
    (mergePatch wP1 (projectData wIn1 (TechInput.arr ["T"]) 5)).createdAt = wP1.createdAt
    ∧ (mergePatch wP1 (projectData wIn1 (TechInput.arr ["T"]) 5)).updatedAt = some 5
    ∧ (mergePatch wP1 (projectData wIn1 (TechInput.arr ["T"]) 5)).description
        = wP1.description := by
  have h := save_update_merge 5 "g" wIn1 ⟨[wP1], [wP1]⟩ wP1 (.arr ["T"]) rfl rfl
    (by decide) (by decide)
  exact ⟨h.2.2.2.2.2.2.1, h.2.2.2.2.2.2.2.1, h.2.2.1 rfl⟩

end Portfolio
